import Mathlib

/-!
Verification of the handle-based session registry of the Trino ODBC driver
(`ConnectionManager` in trino-odbc-driver.py).

The registry holds three Python dicts keyed by handle strings:
`connections`, `cursors`, `connection_params`.  Dicts are embedded as
association lists with unique-key update semantics (`dlookup`, `upsert`,
`eraseKey`).  The backing Trino client is an opaque capability: the outcome
of each backend call (connect, execute) is an explicit input to the
corresponding registry operation, and the result set held by a backend
cursor is modelled as the list of its not-yet-fetched rows.
-/

namespace TrinoRegistry

/-- Python dict lookup `d[k]` / `k in d`, first (unique) matching key. -/
def dlookup {α : Type} (l : List (String × α)) (k : String) : Option α :=
  match l with
  | [] => none
  | (k0, v0) :: rest => if k0 = k then some v0 else dlookup rest k

/-- Python dict assignment `d[k] = v`: update in place if present, else append. -/
def upsert {α : Type} (l : List (String × α)) (k : String) (v : α) : List (String × α) :=
  match l with
  | [] => [(k, v)]
  | (k0, v0) :: rest => if k0 = k then (k, v) :: rest else (k0, v0) :: upsert rest k v

/-- Python dict deletion `del d[k]` (keys are unique, so removing every
occurrence coincides with removing the one entry). -/
def eraseKey {α : Type} (l : List (String × α)) (k : String) : List (String × α) :=
  match l with
  | [] => []
  | (k0, v0) :: rest => if k0 = k then eraseKey rest k else (k0, v0) :: eraseKey rest k

/-- Python `p.startswith(s)` on strings, as a prefix test on the character data. -/
def strStartsWith (p s : String) : Bool :=
  List.isPrefixOf p.data s.data

/-- One entry of `cursor.description`: the 7-tuple
(name, type_code, display_size, internal_size, precision, scale, null_ok). -/
structure ColDesc where
  name : String
  type_code : Int
  display_size : Option Int
  internal_size : Option Int
  precision : Option Int
  scale : Option Int
  null_ok : Option Bool
deriving DecidableEq

/-- A result row as delivered by the backend cursor: an ordered tuple of values. -/
abbrev Row := List String

/-- The registry-visible state of a backend Trino cursor object:
its current `description`, its `rowcount`, and the rows of the current
result set that have not been consumed by `fetchmany` yet. -/
structure TrinoCursor where
  description : Option (List ColDesc)
  rowcount : Int
  pending : List Row
deriving DecidableEq

/-- A freshly created backend cursor (`connection.cursor()`): no description,
rowcount -1, nothing to fetch. -/
def TrinoCursor.fresh : TrinoCursor :=
  { description := none, rowcount := -1, pending := [] }

/-- The backend Trino connection object is opaque to the registry: the code
only ever calls `.cursor()` and `.close()` on it. -/
abbrev TrinoConn := Unit

/-- Connection parameters as accepted by `create_connection`; an absent
field models an absent dict key. -/
structure ConnParams where
  host : Option String
  port : Option Int
  user : Option String
  password : Option String
  catalog : Option String
  schema : Option String
  http_scheme : Option String
  verify : Option Bool
  session_properties : Option (List (String × String))
deriving DecidableEq

/-- The `TrinoODBCError` exceptions raised by the registry, one constructor
per raise site / message format in the source. -/
inductive TrinoODBCError where
  /-- "Failed to connect to Trino: msg" (create_connection). -/
  | connectionError (msg : String)
  /-- "Connection id does not exist" (create_cursor, get_connection_info). -/
  | connectionNotFound (id : String)
  /-- "Cursor id does not exist" (execute_query, fetch_results). -/
  | cursorNotFound (id : String)
  /-- "Query execution error: msg" (execute_query). -/
  | queryExecutionError (msg : String)
  /-- A bare Python KeyError on `connection_params[connection_id]`;
  unreachable on reachable states (see the map-alignment invariant). -/
  | keyError (id : String)
deriving DecidableEq

/-- What `execute_query` hands to the backend cursor's `execute`. -/
inductive BackendCall where
  | noParams (query : String)
  | withParams (query : String) (parameters : List String)
deriving DecidableEq

/-- The backend's answer to a successful `execute`: the new description,
rowcount, and result rows of the cursor afterwards. -/
structure ExecResult where
  description : Option (List ColDesc)
  rowcount : Int
  rows : List Row
deriving DecidableEq

/-- The success payload of `execute_query`. -/
structure ExecReply where
  columns : List ColDesc
  rowcount : Int
deriving DecidableEq

/-- A fetched row as serialized by `fetch_results`: a dict keyed by column
name when a description is available, a plain list otherwise. -/
inductive FetchedRow where
  | asDict (fields : List (String × String))
  | asList (values : List String)
deriving DecidableEq

/-- The success payload of `fetch_results`. -/
structure FetchReply where
  rows : List FetchedRow
  has_more : Bool
deriving DecidableEq

/-- The state of `ConnectionManager`: the three dicts guarded by the lock. -/
structure ConnectionManager where
  connections : List (String × TrinoConn)
  cursors : List (String × TrinoCursor)
  connection_params : List (String × ConnParams)
deriving DecidableEq

/-- `ConnectionManager.__init__`: all three maps empty. -/
def ConnectionManager.init : ConnectionManager :=
  { connections := [], cursors := [], connection_params := [] }

/-- `create_connection`: `uuid` is the string produced by `uuid.uuid4()` and
`connectResult` the outcome of the backend `trino.dbapi.connect` call.  On
success the session and the original parameters are stored under the fresh
handle; on failure a `connectionError` carrying the backend message is
raised and nothing is stored. -/
def create_connection (m : ConnectionManager) (params : ConnParams)
    (uuid : String) (connectResult : Except String TrinoConn) :
    Except TrinoODBCError String × ConnectionManager :=
  let connection_id := uuid
  match connectResult with
  | .error e => (.error (.connectionError e), m)
  | .ok conn =>
      (.ok connection_id,
        { m with
            connections := upsert m.connections connection_id conn,
            connection_params := upsert m.connection_params connection_id params })

/-- `close_connection`: under the lock, if the handle is known, close and
delete every cursor whose id starts with the connection id (cascade), close
the session, delete the connection and its stored parameters, return true;
otherwise return false.  Backend `close()` calls have no registry-visible
effect.  The `del connection_params[connection_id]` presupposes the key is
present, which the map-alignment invariant guarantees on reachable states. -/
def close_connection (m : ConnectionManager) (connection_id : String) :
    Bool × ConnectionManager :=
  if (dlookup m.connections connection_id).isSome then
    (true,
      { connections := eraseKey m.connections connection_id,
        cursors := m.cursors.filter (fun p => !(strStartsWith connection_id p.1)),
        connection_params := eraseKey m.connection_params connection_id })
  else
    (false, m)

/-- `create_cursor`: raises `connectionNotFound` if the connection handle is
unknown; otherwise stores a fresh backend cursor under the handle
`connection_id ++ "_" ++ uuid` and returns that handle. -/
def create_cursor (m : ConnectionManager) (connection_id : String)
    (uuid : String) : Except TrinoODBCError String × ConnectionManager :=
  match dlookup m.connections connection_id with
  | none => (.error (.connectionNotFound connection_id), m)
  | some _ =>
      let cursor_id := connection_id ++ "_" ++ uuid
      (.ok cursor_id,
        { m with cursors := upsert m.cursors cursor_id TrinoCursor.fresh })

/-- `close_cursor`: if the handle is known, close the backend cursor and
delete the entry, returning true; otherwise return false. -/
def close_cursor (m : ConnectionManager) (cursor_id : String) :
    Bool × ConnectionManager :=
  if (dlookup m.cursors cursor_id).isSome then
    (true, { m with cursors := eraseKey m.cursors cursor_id })
  else
    (false, m)

/-- Lines 188-191 of the source: `if parameters: cursor.execute(query,
parameters) else: cursor.execute(query)`.  Python truthiness: `None` and the
empty list are both falsy, so only a provided, non-empty parameter list
reaches the backend. -/
def execBackendCall (query : String) (parameters : Option (List String)) :
    BackendCall :=
  match parameters with
  | none => .noParams query
  | some ps => if ps.isEmpty then .noParams query else .withParams query ps

/-- Python truthiness of `cursor.description`: `None` and `[]` are falsy. -/
def descTruthy (d : Option (List ColDesc)) : Bool :=
  match d with
  | none => false
  | some l => !l.isEmpty

/-- `execute_query`: raises `cursorNotFound` if the cursor handle is
unknown.  Otherwise delegates `execBackendCall query parameters` to the
backend (`backend` gives the outcome of that call).  On success the cursor
object now carries the new description, rowcount and result rows; the reply
lists the description's column tuples (empty when the description is falsy)
and the rowcount, with negative counts reported as -1.  On backend failure a
`queryExecutionError` carrying the backend message is raised and the
registry is untouched. -/
def execute_query (m : ConnectionManager) (cursor_id : String)
    (query : String) (parameters : Option (List String))
    (backend : BackendCall → Except String ExecResult) :
    Except TrinoODBCError ExecReply × ConnectionManager :=
  match dlookup m.cursors cursor_id with
  | none => (.error (.cursorNotFound cursor_id), m)
  | some _ =>
      match backend (execBackendCall query parameters) with
      | .error e => (.error (.queryExecutionError e), m)
      | .ok res =>
          let cursor1 : TrinoCursor :=
            { description := res.description, rowcount := res.rowcount,
              pending := res.rows }
          let columns : List ColDesc :=
            if descTruthy cursor1.description then cursor1.description.getD []
            else []
          (.ok { columns := columns,
                 rowcount := if 0 ≤ cursor1.rowcount then cursor1.rowcount else -1 },
            { m with cursors := upsert m.cursors cursor_id cursor1 })

/-- `fetch_results`: raises `cursorNotFound` if the cursor handle is
unknown.  Otherwise `rows = cursor.fetchmany(max_rows)` consumes up to
`max_rows` pending rows; rows are serialized as dicts keyed by column name
when the description is truthy, as plain lists otherwise; `has_more` is
`len(rows) >= max_rows`. -/
def fetch_results (m : ConnectionManager) (cursor_id : String)
    (max_rows : Int) : Except TrinoODBCError FetchReply × ConnectionManager :=
  match dlookup m.cursors cursor_id with
  | none => (.error (.cursorNotFound cursor_id), m)
  | some cursor =>
      let rows := cursor.pending.take max_rows.toNat
      let result_rows : List FetchedRow :=
        if descTruthy cursor.description then
          let column_names := (cursor.description.getD []).map (·.name)
          rows.map (fun row => .asDict (column_names.zip row))
        else
          rows.map (fun row => .asList row)
      let has_more : Bool := decide (max_rows ≤ (rows.length : Int))
      (.ok { rows := result_rows, has_more := has_more },
        { m with
            cursors := upsert m.cursors cursor_id
              { cursor with pending := cursor.pending.drop max_rows.toNat } })

/-- `get_connection_info`: raises `connectionNotFound` if the handle is
unknown; otherwise returns a copy of the stored parameters with the
password, when present, replaced by the marker "***".  The registry state
is never modified.  The inner `none` branch is the bare KeyError Python
would raise on `connection_params[connection_id]`; it is unreachable on
reachable states. -/
def get_connection_info (m : ConnectionManager) (connection_id : String) :
    Except TrinoODBCError ConnParams × ConnectionManager :=
  match dlookup m.connections connection_id with
  | none => (.error (.connectionNotFound connection_id), m)
  | some _ =>
      match dlookup m.connection_params connection_id with
      | none => (.error (.keyError connection_id), m)
      | some params =>
          let info :=
            if params.password.isSome then { params with password := some "***" }
            else params
          (.ok info, m)

/-- States reachable from the fresh registry by any sequence of operations,
with the external inputs (uuids, backend outcomes) arbitrary. -/
inductive Reachable : ConnectionManager → Prop where
  | init : Reachable ConnectionManager.init
  | step_create_connection {m} (p u c) :
      Reachable m → Reachable (create_connection m p u c).2
  | step_close_connection {m} (h) :
      Reachable m → Reachable (close_connection m h).2
  | step_create_cursor {m} (h u) :
      Reachable m → Reachable (create_cursor m h u).2
  | step_close_cursor {m} (h) :
      Reachable m → Reachable (close_cursor m h).2
  | step_execute_query {m} (h q ps b) :
      Reachable m → Reachable (execute_query m h q ps b).2
  | step_fetch_results {m} (h n) :
      Reachable m → Reachable (fetch_results m h n).2
  | step_get_connection_info {m} (h) :
      Reachable m → Reachable (get_connection_info m h).2

/-! ### Association-list (dict) lemmas -/

theorem dlookup_upsert {α : Type} (l : List (String × α)) (k k' : String) (v : α) :
    dlookup (upsert l k v) k' = if k = k' then some v else dlookup l k' := by
  induction l with
  | nil => rfl
  | cons hd tl ih =>
    obtain ⟨k0, v0⟩ := hd
    by_cases h0 : k0 = k
    · subst h0
      by_cases h1 : k0 = k' <;> simp [upsert, dlookup, h1]
    · by_cases h1 : k0 = k' <;> by_cases h2 : k = k' <;>
        simp_all [upsert, dlookup]

theorem dlookup_eraseKey {α : Type} (l : List (String × α)) (k k' : String) :
    dlookup (eraseKey l k) k' = if k = k' then none else dlookup l k' := by
  induction l with
  | nil => simp [eraseKey, dlookup]
  | cons hd tl ih =>
    obtain ⟨k0, v0⟩ := hd
    by_cases h0 : k0 = k <;> by_cases h1 : k0 = k' <;> by_cases h2 : k = k' <;>
      simp_all [eraseKey, dlookup]

theorem dlookup_filter_startsWith {α : Type} (l : List (String × α))
    (c k : String) :
    dlookup (l.filter (fun p => !(strStartsWith c p.1))) k =
      if strStartsWith c k then none else dlookup l k := by
  induction l with
  | nil => simp [dlookup]
  | cons hd tl ih =>
    obtain ⟨k0, v0⟩ := hd
    by_cases h0 : strStartsWith c k0 <;> by_cases h1 : k0 = k <;>
      simp_all [dlookup, List.filter]

/-! ### String prefix lemmas -/

theorem strStartsWith_self_append (a b : String) :
    strStartsWith a (a ++ b) = true := by
  simp [strStartsWith, String.data_append, List.isPrefixOf_iff_prefix]

theorem cursor_handle_startsWith (c u : String) :
    strStartsWith c (c ++ "_" ++ u) = true := by
  rw [String.append_assoc]
  exact strStartsWith_self_append c ("_" ++ u)

/-- Two handles of the shape `conn ++ "_" ++ uuid` built from uuids of equal
length are equal only if the uuids are equal. -/
theorem cursor_handle_inj (c1 c2 u1 u2 : String)
    (hlen : u1.length = u2.length)
    (heq : c1 ++ "_" ++ u1 = c2 ++ "_" ++ u2) : u1 = u2 := by
  have hdata : (c1 ++ "_").data ++ u1.data = (c2 ++ "_").data ++ u2.data := by
    have h1 := congrArg String.data heq
    simpa [String.data_append] using h1
  have hu : u1.data.length = u2.data.length := hlen
  have hfirst : (c1 ++ "_").data.length = (c2 ++ "_").data.length := by
    have h2 := congrArg List.length hdata
    simp only [List.length_append] at h2
    omega
  exact String.ext (List.append_inj hdata hfirst).2

/-! ### Branch equations for the registry operations -/

theorem close_connection_found {m : ConnectionManager} {h : String}
    (hl : (dlookup m.connections h).isSome = true) :
    close_connection m h =
      (true,
        { connections := eraseKey m.connections h,
          cursors := m.cursors.filter (fun p => !(strStartsWith h p.1)),
          connection_params := eraseKey m.connection_params h }) := by
  simp [close_connection, hl]

theorem close_connection_not_found {m : ConnectionManager} {h : String}
    (hl : (dlookup m.connections h).isSome = false) :
    close_connection m h = (false, m) := by
  simp [close_connection, hl]

theorem create_cursor_found {m : ConnectionManager} {h : String}
    {conn : TrinoConn} (u : String)
    (hc : dlookup m.connections h = some conn) :
    create_cursor m h u =
      (.ok (h ++ "_" ++ u),
        { m with cursors := upsert m.cursors (h ++ "_" ++ u) TrinoCursor.fresh }) := by
  simp [create_cursor, hc]

theorem create_cursor_not_found {m : ConnectionManager} {h : String}
    (u : String) (hc : dlookup m.connections h = none) :
    create_cursor m h u = (.error (.connectionNotFound h), m) := by
  simp [create_cursor, hc]

theorem close_cursor_found {m : ConnectionManager} {h : String}
    (hl : (dlookup m.cursors h).isSome = true) :
    close_cursor m h = (true, { m with cursors := eraseKey m.cursors h }) := by
  simp [close_cursor, hl]

theorem close_cursor_not_found {m : ConnectionManager} {h : String}
    (hl : (dlookup m.cursors h).isSome = false) :
    close_cursor m h = (false, m) := by
  simp [close_cursor, hl]

theorem execute_query_not_found {m : ConnectionManager} {h : String}
    (q : String) (ps : Option (List String))
    (b : BackendCall → Except String ExecResult)
    (hc : dlookup m.cursors h = none) :
    execute_query m h q ps b = (.error (.cursorNotFound h), m) := by
  simp [execute_query, hc]

theorem execute_query_backend_error {m : ConnectionManager} {h : String}
    {cur : TrinoCursor} {q : String} {ps : Option (List String)}
    {b : BackendCall → Except String ExecResult} {e : String}
    (hc : dlookup m.cursors h = some cur)
    (hb : b (execBackendCall q ps) = .error e) :
    execute_query m h q ps b = (.error (.queryExecutionError e), m) := by
  simp [execute_query, hc, hb]

theorem execute_query_ok {m : ConnectionManager} {h : String}
    {cur : TrinoCursor} {q : String} {ps : Option (List String)}
    {b : BackendCall → Except String ExecResult} {res : ExecResult}
    (hc : dlookup m.cursors h = some cur)
    (hb : b (execBackendCall q ps) = .ok res) :
    execute_query m h q ps b =
      (.ok { columns :=
              if descTruthy res.description then res.description.getD [] else [],
             rowcount := if 0 ≤ res.rowcount then res.rowcount else -1 },
        { m with cursors :=
            upsert m.cursors h ⟨res.description, res.rowcount, res.rows⟩ }) := by
  simp [execute_query, hc, hb]

theorem fetch_results_not_found {m : ConnectionManager} {h : String}
    (n : Int) (hc : dlookup m.cursors h = none) :
    fetch_results m h n = (.error (.cursorNotFound h), m) := by
  simp [fetch_results, hc]

theorem fetch_results_found {m : ConnectionManager} {h : String}
    {cur : TrinoCursor} (n : Int) (hc : dlookup m.cursors h = some cur) :
    fetch_results m h n =
      (.ok { rows :=
              if descTruthy cur.description then
                (cur.pending.take n.toNat).map
                  (fun row => .asDict (((cur.description.getD []).map (·.name)).zip row))
              else (cur.pending.take n.toNat).map (fun row => .asList row),
             has_more := decide (n ≤ ((cur.pending.take n.toNat).length : Int)) },
        { m with cursors :=
            upsert m.cursors h ⟨cur.description, cur.rowcount, cur.pending.drop n.toNat⟩ }) := by
  simp [fetch_results, hc]

theorem get_connection_info_not_found {m : ConnectionManager} {h : String}
    (hc : dlookup m.connections h = none) :
    get_connection_info m h = (.error (.connectionNotFound h), m) := by
  simp [get_connection_info, hc]

theorem get_connection_info_found {m : ConnectionManager} {h : String}
    {conn : TrinoConn} {params : ConnParams}
    (hc : dlookup m.connections h = some conn)
    (hp : dlookup m.connection_params h = some params) :
    get_connection_info m h =
      (.ok (if params.password.isSome then { params with password := some "***" }
            else params), m) := by
  simp [get_connection_info, hc, hp]

/-! ### Registry invariants -/

/-- Every cursor entry is owned, via the handle-prefix scheme, by a
connection that is still present in the connection map. -/
def cursorsOwned (m : ConnectionManager) : Prop :=
  ∀ k, (dlookup m.cursors k).isSome →
    ∃ c, (dlookup m.connections c).isSome ∧ strStartsWith c k = true

/-- The connection map and the stored-parameters map have the same keys. -/
def paramsAligned (m : ConnectionManager) : Prop :=
  ∀ k, (dlookup m.connections k).isSome ↔ (dlookup m.connection_params k).isSome

def Inv (m : ConnectionManager) : Prop := cursorsOwned m ∧ paramsAligned m

theorem inv_init : Inv ConnectionManager.init := by
  constructor
  · intro k hk; simp [ConnectionManager.init, dlookup] at hk
  · intro k; simp [ConnectionManager.init, dlookup]

theorem inv_create_connection {m : ConnectionManager} (hm : Inv m)
    (p : ConnParams) (u : String) (c : Except String TrinoConn) :
    Inv (create_connection m p u c).2 := by
  obtain ⟨hown, halign⟩ := hm
  cases c with
  | error e => exact ⟨hown, halign⟩
  | ok conn =>
    constructor
    · intro k hk
      obtain ⟨c0, hc0, hpre⟩ := hown k hk
      refine ⟨c0, ?_, hpre⟩
      simp only [create_connection, dlookup_upsert]
      by_cases h : u = c0 <;> simp [h, hc0]
    · intro k
      simp only [create_connection, dlookup_upsert]
      by_cases h : u = k <;> simp [h, halign k]

theorem inv_close_connection {m : ConnectionManager} (hm : Inv m)
    (h : String) : Inv (close_connection m h).2 := by
  obtain ⟨hown, halign⟩ := hm
  by_cases hl : (dlookup m.connections h).isSome
  · constructor
    · intro k hk
      simp only [close_connection, hl, if_true] at hk ⊢
      rw [dlookup_filter_startsWith] at hk
      by_cases hpre : strStartsWith h k
      · simp [hpre] at hk
      · simp only [hpre, if_false] at hk
        obtain ⟨c0, hc0, hc0pre⟩ := hown k hk
        have hne : h ≠ c0 := by
          intro he; subst he; exact hpre (by simpa using hc0pre)
        refine ⟨c0, ?_, hc0pre⟩
        rw [dlookup_eraseKey]
        simp [hne, hc0]
    · intro k
      simp only [close_connection, hl, if_true]
      rw [dlookup_eraseKey, dlookup_eraseKey]
      by_cases he : h = k <;> simp [he, halign k]
  · simp only [close_connection, hl, if_false]
    exact ⟨hown, halign⟩

theorem inv_create_cursor {m : ConnectionManager} (hm : Inv m)
    (h u : String) : Inv (create_cursor m h u).2 := by
  obtain ⟨hown, halign⟩ := hm
  cases hc : dlookup m.connections h with
  | none => rw [create_cursor_not_found u hc]; exact ⟨hown, halign⟩
  | some conn =>
    rw [create_cursor_found u hc]
    constructor
    · intro k hk
      simp only [dlookup_upsert] at hk
      by_cases he : h ++ "_" ++ u = k
      · exact ⟨h, by simp [hc], he ▸ cursor_handle_startsWith h u⟩
      · simp only [he, if_false] at hk
        exact hown k hk
    · intro k
      exact halign k

theorem inv_close_cursor {m : ConnectionManager} (hm : Inv m)
    (h : String) : Inv (close_cursor m h).2 := by
  obtain ⟨hown, halign⟩ := hm
  by_cases hl : (dlookup m.cursors h).isSome
  · rw [close_cursor_found hl]
    constructor
    · intro k hk
      simp only [dlookup_eraseKey] at hk
      by_cases he : h = k
      · simp [he] at hk
      · simp only [he, if_false] at hk
        exact hown k hk
    · intro k
      exact halign k
  · rw [close_cursor_not_found (by simpa using hl)]
    exact ⟨hown, halign⟩

theorem inv_execute_query {m : ConnectionManager} (hm : Inv m)
    (h q : String) (ps : Option (List String))
    (b : BackendCall → Except String ExecResult) :
    Inv (execute_query m h q ps b).2 := by
  obtain ⟨hown, halign⟩ := hm
  cases hc : dlookup m.cursors h with
  | none => rw [execute_query_not_found q ps b hc]; exact ⟨hown, halign⟩
  | some cur =>
    cases hb : b (execBackendCall q ps) with
    | error e => rw [execute_query_backend_error hc hb]; exact ⟨hown, halign⟩
    | ok res =>
      rw [execute_query_ok hc hb]
      constructor
      · intro k hk
        simp only [dlookup_upsert] at hk
        by_cases he : h = k
        · exact hown k (by subst he; simp [hc])
        · simp only [he, if_false] at hk
          exact hown k hk
      · intro k
        exact halign k

theorem inv_fetch_results {m : ConnectionManager} (hm : Inv m)
    (h : String) (n : Int) : Inv (fetch_results m h n).2 := by
  obtain ⟨hown, halign⟩ := hm
  cases hc : dlookup m.cursors h with
  | none => rw [fetch_results_not_found n hc]; exact ⟨hown, halign⟩
  | some cur =>
    rw [fetch_results_found n hc]
    constructor
    · intro k hk
      simp only [dlookup_upsert] at hk
      by_cases he : h = k
      · exact hown k (by subst he; simp [hc])
      · simp only [he, if_false] at hk
        exact hown k hk
    · intro k
      exact halign k

theorem get_connection_info_snd (m : ConnectionManager) (h : String) :
    (get_connection_info m h).2 = m := by
  unfold get_connection_info
  split
  · rfl
  · split
    · rfl
    · rfl

theorem reachable_inv {m : ConnectionManager} (hr : Reachable m) : Inv m := by
  induction hr with
  | init => exact inv_init
  | step_create_connection p u c _ ih => exact inv_create_connection ih p u c
  | step_close_connection h _ ih => exact inv_close_connection ih h
  | step_create_cursor h u _ ih => exact inv_create_cursor ih h u
  | step_close_cursor h _ ih => exact inv_close_cursor ih h
  | step_execute_query h q ps b _ ih => exact inv_execute_query ih h q ps b
  | step_fetch_results h n _ ih =>
      exact inv_fetch_results ih h n
  | step_get_connection_info h _ ih =>
      rw [get_connection_info_snd]; exact ih

/-! ### Concurrency model for CloseConnection vs OpenCursor

Both `close_connection` (source lines 107-126) and `create_cursor` (lines
138-146) perform all of their work inside `with self.lock:`, so the lock
serializes the two critical sections; an interleaving of one
CloseConnection(h) with one OpenCursor(h) is exactly one of the two
serialization orders, selected here by `closeFirst`. -/
def close_create_race (m : ConnectionManager) (h u : String)
    (closeFirst : Bool) : ConnectionManager :=
  if closeFirst then (create_cursor (close_connection m h).2 h u).2
  else (close_connection (create_cursor m h u).2 h).2

/-! ### Concrete fixture states -/

def pEx : ConnParams :=
  { host := some "db1", port := some 8080, user := some "alice",
    password := some "secret", catalog := none, schema := none,
    http_scheme := none, verify := none, session_properties := none }

/-- One open connection with handle "c1". -/
def mEx1 : ConnectionManager :=
  (create_connection ConnectionManager.init pEx "c1" (.ok ())).2

/-- ... plus one cursor with handle "c1_u1". -/
def mEx2 : ConnectionManager := (create_cursor mEx1 "c1" "u1").2

/-- A backend that answers every execute with one column and two rows. -/
def bEx : BackendCall → Except String ExecResult :=
  fun _ => .ok ⟨some [⟨"x", 0, none, none, none, none, none⟩], 2, [["1"], ["2"]]⟩

/-- A backend that rejects every execute. -/
def bErr : BackendCall → Except String ExecResult := fun _ => .error "boom"

/-- ... after executing a query on cursor "c1_u1" against `bEx`. -/
def mEx3 : ConnectionManager :=
  (execute_query mEx2 "c1_u1" "SELECT 1" none bEx).2

theorem mEx1_reachable : Reachable mEx1 :=
  Reachable.step_create_connection pEx "c1" (.ok ()) Reachable.init

theorem mEx2_reachable : Reachable mEx2 :=
  Reachable.step_create_cursor "c1" "u1" mEx1_reachable

theorem mEx3_reachable : Reachable mEx3 :=
  Reachable.step_execute_query "c1_u1" "SELECT 1" none bEx mEx2_reachable

/-! ### Claims -/

/-- Claim C1: from the empty registry, after any sequence of operations,
every cursor entry in the cursor map is owned (via the handle-prefix
scheme) by a connection still present in the connection map; and after a
successful CloseConnection(c), a CloseCursor on any handle scoped under c
returns false and leaves the state unchanged. -/
theorem claim_c1_cursor_owner_invariant (m : ConnectionManager)
    (hr : Reachable m) :
    cursorsOwned m ∧
    (∀ c k, (close_connection m c).1 = true → strStartsWith c k = true →
      close_cursor (close_connection m c).2 k = (false, (close_connection m c).2)) := by
  refine ⟨(reachable_inv hr).1, ?_⟩
  intro c k hcl hpre
  by_cases hl : (dlookup m.connections c).isSome
  · rw [close_connection_found hl] at hcl ⊢
    dsimp only
    apply close_cursor_not_found
    show (dlookup (m.cursors.filter (fun p => !(strStartsWith c p.1))) k).isSome = false
    rw [dlookup_filter_startsWith]
    simp [hpre]
  · rw [close_connection_not_found (by simpa using hl)] at hcl
    simp at hcl

/-- Claim C1 witness: closing connection "c1" cascades away cursor "c1_u1",
so the subsequent CloseCursor returns false. -/
theorem claim_c1_witness :
    close_cursor (close_connection mEx2 "c1").2 "c1_u1" =
      (false, (close_connection mEx2 "c1").2) :=
  (claim_c1_cursor_owner_invariant mEx2 mEx2_reachable).2 "c1" "c1_u1"
    (by decide) (by decide)

/-- Claim C2 counterexample: an explicitly supplied empty parameter list is
delegated to the backend exactly like no parameters at all, because line 188
tests Python truthiness (`if parameters:`) rather than `is not None`; so the
claimed distinction between "no parameters" and "empty parameter list" is
not preserved. -/
theorem claim_c2_counterexample :
    (some ([] : List String)).isSome = true ∧
    execBackendCall "SELECT 1" (some []) = BackendCall.noParams "SELECT 1" ∧
    execBackendCall "SELECT 1" (some []) = execBackendCall "SELECT 1" none ∧
    execute_query mEx2 "c1_u1" "SELECT 1" (some []) bEx =
      execute_query mEx2 "c1_u1" "SELECT 1" none bEx :=
  ⟨rfl, rfl, rfl, rfl⟩

/-- Claim C2 (amended): the parameters argument reaches the backend cursor's
execute exactly when the caller provided a non-empty parameter list; a call
with no parameters and a call with an explicitly supplied empty list are
delegated identically. -/
theorem claim_c2_execute_delegation (q : String) (ps : Option (List String)) :
    (∀ l, ps = some l → l ≠ [] → execBackendCall q ps = .withParams q l) ∧
    (ps = none ∨ ps = some [] → execBackendCall q ps = .noParams q) := by
  constructor
  · rintro l rfl hl
    simp [execBackendCall, hl]
  · rintro (rfl | rfl) <;> rfl

/-- Claim C2 witness: a provided non-empty parameter list is passed through. -/
theorem claim_c2_witness :
    execBackendCall "SELECT 1" (some ["a"]) =
      BackendCall.withParams "SELECT 1" ["a"] :=
  (claim_c2_execute_delegation "SELECT 1" (some ["a"])).1 ["a"] rfl (by decide)

/-- Claim C3: for a known cursor and maxRows k >= 0, FetchResults succeeds,
returns at most k rows, and has_more is true iff exactly k rows were
returned. -/
theorem claim_c3_fetch_results_page (m : ConnectionManager)
    (cursor_id : String) (cur : TrinoCursor) (max_rows : Int)
    (h0 : 0 ≤ max_rows) (hc : dlookup m.cursors cursor_id = some cur) :
    ∃ reply m2, fetch_results m cursor_id max_rows = (.ok reply, m2) ∧
      (reply.rows.length : Int) ≤ max_rows ∧
      (reply.has_more = true ↔ (reply.rows.length : Int) = max_rows) := by
  have hlen : (cur.pending.take max_rows.toNat).length ≤ max_rows.toNat :=
    List.length_take_le _ _
  refine ⟨_, _, fetch_results_found max_rows hc, ?_, ?_⟩
  · by_cases hd : descTruthy cur.description <;>
      simp only [hd, if_true, if_false, Bool.false_eq_true, List.length_map] <;>
      omega
  · by_cases hd : descTruthy cur.description <;>
      simp only [hd, if_true, if_false, Bool.false_eq_true, List.length_map,
        decide_eq_true_eq] <;>
      omega

/-- Claim C3 witness: fetching up to 10 rows from a cursor holding 2 rows
returns both, and has_more is false. -/
theorem claim_c3_witness :
    ∃ reply m2, fetch_results mEx3 "c1_u1" 10 = (.ok reply, m2) ∧
      (reply.rows.length : Int) ≤ 10 ∧
      (reply.has_more = true ↔ (reply.rows.length : Int) = 10) :=
  claim_c3_fetch_results_page mEx3 "c1_u1"
    ⟨some [⟨"x", 0, none, none, none, none, none⟩], 2, [["1"], ["2"]]⟩ 10
    (by decide) (by decide)

/-- Claim C4: on a live connection whose stored parameters include a
password, GetConnectionInfo returns the stored parameters with the password
replaced by the fixed marker "***" and every other field unchanged; the
supplied password value itself (when distinct from the marker) does not
appear in the password field of the reply. -/
theorem claim_c4_connection_info_masks_password (m : ConnectionManager)
    (h : String) (conn : TrinoConn) (p : ConnParams) (pw : String)
    (hc : dlookup m.connections h = some conn)
    (hp : dlookup m.connection_params h = some p)
    (hpw : p.password = some pw) :
    ∃ info, (get_connection_info m h).1 = .ok info ∧
      info.password = some "***" ∧ info.host = p.host ∧ info.port = p.port ∧
      info.user = p.user ∧ info.catalog = p.catalog ∧ info.schema = p.schema ∧
      info.http_scheme = p.http_scheme ∧ info.verify = p.verify ∧
      info.session_properties = p.session_properties ∧
      (pw ≠ "***" → info.password ≠ some pw) := by
  rw [get_connection_info_found hc hp]
  dsimp only
  rw [hpw]
  refine ⟨{ p with password := some "***" }, rfl, rfl, rfl, rfl, rfl, rfl, rfl,
    rfl, rfl, rfl, ?_⟩
  intro hne heq
  exact hne (Option.some_inj.mp heq).symm

/-- Claim C4 witness: the scenario of the spec, host "db1", port 8080,
user "alice", password "secret". -/
theorem claim_c4_witness :
    ∃ info, (get_connection_info mEx1 "c1").1 = .ok info ∧
      info.password = some "***" ∧ info.host = pEx.host ∧
      info.port = pEx.port ∧ info.user = pEx.user ∧
      info.catalog = pEx.catalog ∧ info.schema = pEx.schema ∧
      info.http_scheme = pEx.http_scheme ∧ info.verify = pEx.verify ∧
      info.session_properties = pEx.session_properties ∧
      ("secret" ≠ "***" → info.password ≠ some "secret") :=
  claim_c4_connection_info_masks_password mEx1 "c1" () pEx "secret"
    (by decide) (by decide) (by decide)

/-- Claim C5: closing an unknown connection handle or an unknown cursor
handle returns false and leaves the registry unchanged (the operations
return a boolean, not an exception). -/
theorem claim_c5_close_unknown_is_noop (m : ConnectionManager) (h k : String)
    (hc : (dlookup m.connections h).isSome = false)
    (hk : (dlookup m.cursors k).isSome = false) :
    close_connection m h = (false, m) ∧ close_cursor m k = (false, m) :=
  ⟨close_connection_not_found hc, close_cursor_not_found hk⟩

/-- Claim C5 witness: unknown handles against a state with one connection. -/
theorem claim_c5_witness :
    close_connection mEx1 "ghost" = (false, mEx1) ∧
    close_cursor mEx1 "ghost2" = (false, mEx1) :=
  claim_c5_close_unknown_is_noop mEx1 "ghost" "ghost2" (by decide) (by decide)

/-- Claim C6: OpenCursor on an unknown connection handle and ExecuteQuery /
FetchResults on an unknown cursor handle (and GetConnectionInfo on an
unknown connection handle) raise the corresponding not-found error, leaving
the state unchanged and returning no result. -/
theorem claim_c6_unknown_handles_raise (m : ConnectionManager)
    (h k u q : String) (ps : Option (List String))
    (b : BackendCall → Except String ExecResult) (n : Int)
    (hc : dlookup m.connections h = none)
    (hk : dlookup m.cursors k = none) :
    create_cursor m h u = (.error (.connectionNotFound h), m) ∧
    execute_query m k q ps b = (.error (.cursorNotFound k), m) ∧
    fetch_results m k n = (.error (.cursorNotFound k), m) ∧
    get_connection_info m h = (.error (.connectionNotFound h), m) :=
  ⟨create_cursor_not_found u hc, execute_query_not_found q ps b hk,
    fetch_results_not_found n hk, get_connection_info_not_found hc⟩

/-- Claim C6 witness: unknown handles "ghost" and "gcur". -/
theorem claim_c6_witness :
    create_cursor mEx1 "ghost" "u" = (.error (.connectionNotFound "ghost"), mEx1) ∧
    execute_query mEx1 "gcur" "Q" none bEx = (.error (.cursorNotFound "gcur"), mEx1) ∧
    fetch_results mEx1 "gcur" 5 = (.error (.cursorNotFound "gcur"), mEx1) ∧
    get_connection_info mEx1 "ghost" = (.error (.connectionNotFound "ghost"), mEx1) :=
  claim_c6_unknown_handles_raise mEx1 "ghost" "gcur" "u" "Q" none bEx 5
    (by decide) (by decide)

/-- Claim C7: failure atomicity.  If the backend connect fails,
OpenConnection raises a connection error carrying the backend message and
the registry is exactly as before.  If the backend execute fails on a known
cursor, ExecuteQuery raises a query-execution error carrying the backend
message, the registry (hence the cursor's entry) is unchanged, and the same
cursor handle supports a subsequent successful execute. -/
theorem claim_c7_failure_atomicity (m : ConnectionManager) (p : ConnParams)
    (u emsg k q q2 : String) (ps ps2 : Option (List String))
    (cur : TrinoCursor) (b b2 : BackendCall → Except String ExecResult)
    (res2 : ExecResult)
    (hc : dlookup m.cursors k = some cur)
    (hb : b (execBackendCall q ps) = .error emsg)
    (hb2 : b2 (execBackendCall q2 ps2) = .ok res2) :
    create_connection m p u (.error emsg) = (.error (.connectionError emsg), m) ∧
    execute_query m k q ps b = (.error (.queryExecutionError emsg), m) ∧
    ∃ reply, (execute_query m k q2 ps2 b2).1 = .ok reply := by
  refine ⟨rfl, execute_query_backend_error hc hb, ?_⟩
  rw [execute_query_ok hc hb2]
  exact ⟨_, rfl⟩

/-- Claim C7 witness: a failed connect and a failed execute against the
"boom" backend leave mEx2 intact, and the cursor still executes. -/
theorem claim_c7_witness :
    create_connection mEx2 pEx "c9" (.error "boom") =
      (.error (.connectionError "boom"), mEx2) ∧
    execute_query mEx2 "c1_u1" "Q" none bErr =
      (.error (.queryExecutionError "boom"), mEx2) ∧
    ∃ reply, (execute_query mEx2 "c1_u1" "Q2" none bEx).1 = .ok reply :=
  claim_c7_failure_atomicity mEx2 pEx "c9" "boom" "c1_u1" "Q" "Q2" none none
    TrinoCursor.fresh bErr bEx
    ⟨some [⟨"x", 0, none, none, none, none, none⟩], 2, [["1"], ["2"]]⟩
    (by decide) rfl rfl

/-- Claim C8: successful OpenConnection calls whose uuid draws differ return
distinct connection handles, and successful OpenCursor calls whose
(equal-length) uuid draws differ return distinct cursor handles; handle
allocation never reuses a handle as long as the uuid generator never
repeats a value. -/
theorem claim_c8_handle_uniqueness (m1 m2 : ConnectionManager)
    (p1 p2 : ConnParams) (u1 u2 : String)
    (r1 r2 : Except String TrinoConn) (h1 h2 : String)
    (c1 c2 v1 v2 k1 k2 : String)
    (ha : (create_connection m1 p1 u1 r1).1 = .ok h1)
    (hb : (create_connection m2 p2 u2 r2).1 = .ok h2)
    (hu : u1 ≠ u2)
    (hca : (create_cursor m1 c1 v1).1 = .ok k1)
    (hcb : (create_cursor m2 c2 v2).1 = .ok k2)
    (hvlen : v1.length = v2.length) (hv : v1 ≠ v2) :
    h1 ≠ h2 ∧ k1 ≠ k2 := by
  have e1 : h1 = u1 := by
    cases r1 with
    | error e => simp [create_connection] at ha
    | ok conn => simp [create_connection] at ha; exact ha.symm
  have e2 : h2 = u2 := by
    cases r2 with
    | error e => simp [create_connection] at hb
    | ok conn => simp [create_connection] at hb; exact hb.symm
  have ec1 : k1 = c1 ++ "_" ++ v1 := by
    cases hcc : dlookup m1.connections c1 with
    | none => rw [create_cursor_not_found v1 hcc] at hca; simp at hca
    | some conn =>
        rw [create_cursor_found v1 hcc] at hca
        simp only [Except.ok.injEq] at hca
        exact hca.symm
  have ec2 : k2 = c2 ++ "_" ++ v2 := by
    cases hcc : dlookup m2.connections c2 with
    | none => rw [create_cursor_not_found v2 hcc] at hcb; simp at hcb
    | some conn =>
        rw [create_cursor_found v2 hcc] at hcb
        simp only [Except.ok.injEq] at hcb
        exact hcb.symm
  refine ⟨?_, ?_⟩
  · rw [e1, e2]; exact hu
  · rw [ec1, ec2]
    intro he
    exact hv (cursor_handle_inj c1 c2 v1 v2 hvlen he)

/-- Claim C8 witness: uuid draws "a" and "b" yield distinct connection
handles, cursor uuid draws "x" and "y" yield distinct cursor handles. -/
theorem claim_c8_witness : ("a" : String) ≠ "b" ∧ ("c1_x" : String) ≠ "c1_y" :=
  claim_c8_handle_uniqueness mEx1 mEx1 pEx pEx "a" "b" (.ok ()) (.ok ())
    "a" "b" "c1" "c1" "x" "y" "c1_x" "c1_y"
    rfl rfl (by decide) rfl rfl (by decide) (by decide)

/-- Claim C9: both `close_connection` and `create_cursor` run entirely
inside `with self.lock:`, so a CloseConnection(h) racing an OpenCursor(h)
serializes into one of the two orders of `close_create_race`; in either
order, once CloseConnection has run on a live h, the connection is gone and
no cursor scoped under h exists — no cursor is created against a
mid-close connection and none survives the removal. -/
theorem claim_c9_close_atomic_wrt_open_cursor (m : ConnectionManager)
    (h u : String) (closeFirst : Bool)
    (hlive : (dlookup m.connections h).isSome = true) :
    dlookup (close_create_race m h u closeFirst).connections h = none ∧
    ∀ k, strStartsWith h k = true →
      dlookup (close_create_race m h u closeFirst).cursors k = none := by
  obtain ⟨conn, hcc⟩ := Option.isSome_iff_exists.mp hlive
  cases closeFirst with
  | true =>
      have hfin : close_create_race m h u true =
          ⟨eraseKey m.connections h,
           m.cursors.filter (fun p => !(strStartsWith h p.1)),
           eraseKey m.connection_params h⟩ := by
        have h1 : close_create_race m h u true =
            (create_cursor (close_connection m h).2 h u).2 := rfl
        rw [h1, close_connection_found hlive]
        dsimp only
        rw [create_cursor_not_found u
          (by rw [dlookup_eraseKey]; simp)]
      rw [hfin]
      constructor
      · rw [dlookup_eraseKey]; simp
      · intro k hk
        rw [dlookup_filter_startsWith]
        simp [hk]
  | false =>
      have hfin : close_create_race m h u false =
          ⟨eraseKey m.connections h,
           (upsert m.cursors (h ++ "_" ++ u) TrinoCursor.fresh).filter
             (fun p => !(strStartsWith h p.1)),
           eraseKey m.connection_params h⟩ := by
        have h1 : close_create_race m h u false =
            (close_connection (create_cursor m h u).2 h).2 := rfl
        rw [h1, create_cursor_found u hcc]
        dsimp only
        rw [@close_connection_found
          ⟨m.connections, upsert m.cursors (h ++ "_" ++ u) TrinoCursor.fresh,
           m.connection_params⟩ h hlive]
      rw [hfin]
      constructor
      · rw [dlookup_eraseKey]; simp
      · intro k hk
        rw [dlookup_filter_startsWith]
        simp [hk]

/-- Claim C9 witness: for connection "c1" of mEx2, in both serialization
orders the connection is removed and the racing cursor handle "c1_u9" is
absent afterwards. -/
theorem claim_c9_witness :
    dlookup (close_create_race mEx2 "c1" "u9" true).connections "c1" = none ∧
    dlookup (close_create_race mEx2 "c1" "u9" false).cursors "c1_u9" = none :=
  ⟨(claim_c9_close_atomic_wrt_open_cursor mEx2 "c1" "u9" true (by decide)).1,
   (claim_c9_close_atomic_wrt_open_cursor mEx2 "c1" "u9" false (by decide)).2
     "c1_u9" (by decide)⟩

/-- Claim C10: on every reachable state the connection map and the
stored-parameters map have exactly the same keys; GetConnectionInfo never
modifies the registry; and on a live connection it always finds stored
parameters. -/
theorem claim_c10_params_alignment (m : ConnectionManager)
    (hr : Reachable m) :
    paramsAligned m ∧
    (∀ h, (get_connection_info m h).2 = m) ∧
    (∀ h, (dlookup m.connections h).isSome →
      ∃ p, dlookup m.connection_params h = some p) := by
  refine ⟨(reachable_inv hr).2, fun h => get_connection_info_snd m h, ?_⟩
  intro h hh
  exact Option.isSome_iff_exists.mp (((reachable_inv hr).2 h).mp hh)

/-- Claim C10 witness: on mEx1, GetConnectionInfo("c1") does not modify the
state and the stored parameters of "c1" exist. -/
theorem claim_c10_witness :
    (get_connection_info mEx1 "c1").2 = mEx1 ∧
    ∃ p, dlookup mEx1.connection_params "c1" = some p :=
  ⟨(claim_c10_params_alignment mEx1 mEx1_reachable).2.1 "c1",
   (claim_c10_params_alignment mEx1 mEx1_reachable).2.2 "c1" (by decide)⟩

end TrinoRegistry
